import Mathlib

/-!
Verification development for the system-level execution core of the
`etroneum-labs/evm` runtime crate (`runtime/src/lib.rs` and
`runtime/src/eval/system.rs`).

Machine integers: `usize` values are natural numbers below `USIZE = 2 ^ 64`
(wrap-around additions are written with an explicit `% USIZE`, matching the
two's-complement wrapping of release builds); 256-bit stack words are natural
numbers below `WORDMOD = 2 ^ 256`; H160 addresses are natural numbers below
`ADDRMOD = 2 ^ 160`.  The byte view of an `H256` word is its 32-byte
big-endian encoding, so the `U256` integer view and the `H256` byte view of a
stack slot are the same natural number (`pop!` and `pop_u256!` both become
`popW` below).  Converting an `H256` into an `H160` keeps the low 20 bytes,
that is, reduces the value modulo `ADDRMOD`.
-/

/-- Number of values of the Rust `usize` type (64-bit targets). -/
def USIZE : Nat := 2 ^ 64

/-- Number of values of a 256-bit stack word. -/
def WORDMOD : Nat := 2 ^ 256

/-- Number of values of a 160-bit address. -/
def ADDRMOD : Nat := 2 ^ 160

/-- A 256-bit stack word, as its integer (big-endian) value. -/
abbrev Word := Nat

/-- A 160-bit account address, as its integer value. -/
abbrev Address := Nat

/-- Successful exit reasons (`ExitSucceed` in `evm-core`). -/
inductive ExitSucceed
  | Stopped
  | Returned
  | Suicided
deriving DecidableEq

/-- Error exit reasons.  Modelled from the spec: the abstract error taxonomy
of section 7 (the concrete `ExitError` enum lives in the `evm-core` crate,
outside the two source files under review); `Other` keeps the type open the
way a host can produce its own errors. -/
inductive ExitError
  | StackUnderflow
  | StackOverflow
  | OutOfOffset
  | OutOfGas
  | InvalidOpcode
  | StaticCallViolation
  | CallTooDeep
  | OutOfFund
  | MemoryExpansion
  | Reverted
  | Other (n : Nat)
deriving DecidableEq

/-- Rust `ExitReason = Result<ExitSucceed, ExitError>`: `ok` is Rust `Ok`,
`error` is Rust `Err`. -/
inductive ExitReason
  | ok (s : ExitSucceed)
  | error (e : ExitError)
deriving DecidableEq

/-- Type `Capture<E, T>` from `evm-core`: either an immediate exit value or a
trap value handed to the outer runner. -/
inductive Capture (E T : Type)
  | exit (e : E)
  | trap (t : T)
deriving DecidableEq

instance {ε α : Type} [DecidableEq ε] [DecidableEq α] : DecidableEq (Except ε α) :=
  fun a b =>
    match a, b with
    | .ok x, .ok y => if h : x = y then .isTrue (by rw [h]) else .isFalse (by simp [h])
    | .error x, .error y =>
      if h : x = y then .isTrue (by rw [h]) else .isFalse (by simp [h])
    | .ok _, .error _ => .isFalse (by simp)
    | .error _, .ok _ => .isFalse (by simp)

/-- Per-frame environmental constants (`Context` in `runtime/src/context.rs`). -/
structure Context where
  address : Address
  caller : Address
  apparentValue : Word
deriving DecidableEq

/-- A balance transfer request handed to the host. -/
structure Transfer where
  source : Address
  target : Address
  value : Word
deriving DecidableEq

/-- Creation scheme `CreateScheme`: dynamic (host-chosen) or fixed (CREATE2) target address. -/
inductive CreateScheme
  | Dynamic
  | Fixed (a : Address)
deriving DecidableEq

/-- The four CALL-family schemes. -/
inductive CallScheme
  | Call
  | CallCode
  | DelegateCall
  | StaticCall
deriving DecidableEq

/-- The configuration record of `runtime/src/lib.rs` (`Config`). -/
structure Config where
  gasExtCode : Nat
  gasExtCodeHash : Nat
  gasSstoreSet : Nat
  gasSstoreReset : Nat
  refundSstoreClears : Int
  gasBalance : Nat
  gasSload : Nat
  gasSuicide : Nat
  gasSuicideNewAccount : Nat
  gasCall : Nat
  gasExpbyte : Nat
  gasTransactionCreate : Nat
  gasTransactionCall : Nat
  gasTransactionZeroData : Nat
  gasTransactionNonZeroData : Nat
  hasReducedSstoreGasMetering : Bool
  errOnCallWithMoreGas : Bool
  callL64AfterGas : Bool
  emptyConsideredExists : Bool
  createIncreaseNonce : Bool
  stackLimit : Nat
  memoryLimit : Nat
  callLimit : Nat
  callStipend : Nat
deriving DecidableEq

/-- Preset `Config::frontier()` with the literal values of the source. -/
def Config.frontier : Config where
  gasExtCode := 20
  gasExtCodeHash := 20
  gasBalance := 20
  gasSload := 50
  gasSstoreSet := 20000
  gasSstoreReset := 5000
  refundSstoreClears := 15000
  gasSuicide := 0
  gasSuicideNewAccount := 0
  gasCall := 40
  gasExpbyte := 10
  gasTransactionCreate := 21000
  gasTransactionCall := 21000
  gasTransactionZeroData := 4
  gasTransactionNonZeroData := 68
  hasReducedSstoreGasMetering := false
  errOnCallWithMoreGas := true
  callL64AfterGas := false
  emptyConsideredExists := true
  createIncreaseNonce := false
  stackLimit := 1024
  memoryLimit := USIZE - 1
  callLimit := 1024
  callStipend := 2300

/-- Preset `Config::istanbul()` with the literal values of the source. -/
def Config.istanbul : Config where
  gasExtCode := 700
  gasExtCodeHash := 700
  gasBalance := 700
  gasSload := 800
  gasSstoreSet := 20000
  gasSstoreReset := 5000
  refundSstoreClears := 15000
  gasSuicide := 5000
  gasSuicideNewAccount := 25000
  gasCall := 700
  gasExpbyte := 50
  gasTransactionCreate := 53000
  gasTransactionCall := 21000
  gasTransactionZeroData := 4
  gasTransactionNonZeroData := 16
  hasReducedSstoreGasMetering := true
  errOnCallWithMoreGas := false
  callL64AfterGas := true
  emptyConsideredExists := false
  createIncreaseNonce := true
  stackLimit := 1024
  memoryLimit := USIZE - 1
  callLimit := 1024
  callStipend := 2300

/-- The abstract host (`Handler` trait).  Modelled from the spec: the trait
declaration lives in `runtime/src/handler.rs`, outside the two files under
review; its methods and result shapes follow section 6 of the spec.  Host
responses are pure functions of the request; the side effects a call performs
on the host are tracked separately as `HEvent` traces.  Trap tokens
(`CreateInterrupt` / `CallInterrupt`) are abstracted as naturals. -/
structure Handler where
  balance : Address → Word
  preValidate : Context → Nat → List Word → Except ExitError Unit
  setStorage : Address → Word → Word → Except ExitError Unit
  log : Address → List Word → List Nat → Except ExitError Unit
  transfer : Transfer → Except ExitError Unit
  markDelete : Address → Except ExitError Unit
  createAddress : Address → CreateScheme → Except ExitError Address
  create : Address → Option Transfer → List Nat → Option Nat → Context →
    Except ExitError (Capture ExitReason Nat)
  call : Address → Option Transfer → List Nat → Option Nat → Bool → Context →
    Except ExitError (Capture (ExitReason × List Nat) Nat)
  isRecoverable : Bool

/-- One observable interaction with the host, in program order.  Query
methods (`balance`, `is_recoverable`, `pre_validate`) are recorded as well,
since hosts may react to them (for example `pre_validate` charges gas). -/
inductive HEvent
  | balanceEv (a : Address)
  | preValidateEv (ctx : Context) (opcode : Nat) (stack : List Word)
  | setStorageEv (a : Address) (key value : Word)
  | logEv (a : Address) (topics : List Word) (data : List Nat)
  | transferEv (t : Transfer)
  | markDeleteEv (a : Address)
  | createAddressEv (caller : Address) (scheme : CreateScheme)
  | createEv (a : Address) (t : Option Transfer) (code : List Nat)
      (gas : Option Nat) (ctx : Context)
  | callEv (toAddr : Address) (t : Option Transfer) (input : List Nat)
      (gas : Option Nat) (isStatic : Bool) (ctx : Context)
  | isRecoverableEv
deriving DecidableEq

/-- Result of an environment opcode (`Control` in `runtime/src/eval/mod.rs`). -/
inductive Control
  | Continue
  | CallInterrupt (i : Nat)
  | CreateInterrupt (i : Nat)
  | Exit (r : ExitReason)
deriving DecidableEq

/-- Position of the inner machine.  Modelled from the spec: the inner
machine (the `evm-core` crate) is an external collaborator; per section 4.1
it is either running at a program counter or moved into an exited state. -/
inductive MachinePos
  | running (pc : Nat)
  | exited (r : ExitReason)
deriving DecidableEq

/-- The inner machine state visible to the runtime: code, call data, stack
(top first), linear byte memory, the two limits, and the position.  Modelled
from the spec: section 3 (the `Machine` type lives in `evm-core`). -/
structure Machine where
  code : List Nat
  callData : List Nat
  stack : List Word
  memory : List Nat
  stackLimit : Nat
  memoryLimit : Nat
  position : MachinePos
deriving DecidableEq

/-- Constructor `Machine::new(code, data, stack_limit, memory_limit)`. -/
def Machine.new (code callData : List Nat) (stackLimit memoryLimit : Nat) : Machine :=
  ⟨code, callData, [], [], stackLimit, memoryLimit, .running 0⟩

/-- Operation `Machine::exit(reason)`: move the machine into an exited state. -/
def Machine.exit (m : Machine) (r : ExitReason) : Machine :=
  { m with position := .exited r }

/-- Whether the machine has exited. -/
def Machine.isExited (m : Machine) : Bool :=
  match m.position with
  | .exited _ => true
  | .running _ => false

/-- Operation `Machine::inspect()`: the current opcode and a view of the stack, or
`none` when the machine has exited or ran past the end of the code.
Modelled from the spec: an exited machine has no current opcode. -/
def Machine.inspect (m : Machine) : Option (Nat × List Word) :=
  match m.position with
  | .exited _ => none
  | .running pc => (m.code.get? pc).map fun op => (op, m.stack)

/-- The runtime frame (`Runtime` in `runtime/src/lib.rs`).  `status` is
`none` for Rust `Ok(())` and `some reason` for `Err(reason)`. -/
structure Runtime where
  machine : Machine
  status : Option ExitReason
  returnDataBuffer : List Nat
  context : Context
  config : Config
deriving DecidableEq

/-- Constructor `Runtime::new(code, data, context, config)`. -/
def Runtime.new (code callData : List Nat) (context : Context) (config : Config) : Runtime :=
  ⟨Machine.new code callData config.stackLimit config.memoryLimit, none, [], context, config⟩

/-- Replace the stack of a runtime's machine. -/
def setStack (r : Runtime) (s : List Word) : Runtime :=
  { r with machine := { r.machine with stack := s } }

@[simp] theorem setStack_stack (r : Runtime) (s : List Word) :
    (setStack r s).machine.stack = s := rfl

@[simp] theorem setStack_memory (r : Runtime) (s : List Word) :
    (setStack r s).machine.memory = r.machine.memory := rfl

@[simp] theorem setStack_stackLimit (r : Runtime) (s : List Word) :
    (setStack r s).machine.stackLimit = r.machine.stackLimit := rfl

@[simp] theorem setStack_memoryLimit (r : Runtime) (s : List Word) :
    (setStack r s).machine.memoryLimit = r.machine.memoryLimit := rfl

@[simp] theorem setStack_status (r : Runtime) (s : List Word) :
    (setStack r s).status = r.status := rfl

@[simp] theorem setStack_returnData (r : Runtime) (s : List Word) :
    (setStack r s).returnDataBuffer = r.returnDataBuffer := rfl

@[simp] theorem setStack_context (r : Runtime) (s : List Word) :
    (setStack r s).context = r.context := rfl

@[simp] theorem setStack_config (r : Runtime) (s : List Word) :
    (setStack r s).config = r.config := rfl

/-- One stack pop.  This is the `pop!` macro (H256 view) as well as the
`pop_u256!` macro (U256 view): the two views of a stack slot are the same
natural number.  On an empty stack the macros return early with
`ExitError::StackUnderflow`; the error carries the runtime as mutated so
far.  Modelled from the spec: the macros live in `runtime/src/eval/mod.rs`
(section 9, operand decoding as a value-or-early-exit sum). -/
def popW (r : Runtime) : Except (ExitError × Runtime) (Word × Runtime) :=
  match r.machine.stack with
  | [] => .error (.StackUnderflow, r)
  | x :: xs => .ok (x, setStack r xs)

/-- Two consecutive pops (`pop_u256!(runtime, a, b)`). -/
def popW2 (r : Runtime) : Except (ExitError × Runtime) ((Word × Word) × Runtime) :=
  match popW r with
  | .error er => .error er
  | .ok (a, r) =>
    match popW r with
    | .error er => .error er
    | .ok (b, r) => .ok ((a, b), r)

/-- Four consecutive pops (`pop_u256!(runtime, a, b, c, d)`). -/
def popW4 (r : Runtime) : Except (ExitError × Runtime) ((Word × Word × Word × Word) × Runtime) :=
  match popW2 r with
  | .error er => .error er
  | .ok ((a, b), r) =>
    match popW2 r with
    | .error er => .error er
    | .ok ((c, d), r) => .ok ((a, b, c, d), r)

/-- The `as_usize_or_fail!` macro: a 256-bit operand is converted to a
native index, failing fatally when it does not fit.  Modelled from the
spec: section 7, operand decoding failures (offset/length too large to fit
a native index) are fatal. -/
def asUsizeOrFail (w : Word) (r : Runtime) : Except (ExitError × Runtime) Nat :=
  if w < USIZE then .ok w else .error (.OutOfOffset, r)

/-- One stack push; both `push!` (H256) and `push_u256!` (U256) reduce to
this.  Fails with `ExitError::StackOverflow` when the stack is full.
Modelled from the spec: section 3, stack bounded by `stack_limit`. -/
def pushW (r : Runtime) (w : Word) : Except (ExitError × Runtime) Runtime :=
  if r.machine.stack.length < r.machine.stackLimit then
    .ok (setStack r (w % WORDMOD :: r.machine.stack))
  else
    .error (.StackOverflow, r)

/-- Operation `Memory::get(offset, size)`: a snapshot of `size` bytes of memory
starting at `offset`, zero beyond the current memory contents.  Modelled
from the spec: section 4.2 (memory reads see zeros beyond the written
region; `Memory` lives in `evm-core`). -/
def memGet (mem : List Nat) (off len : Nat) : List Nat :=
  (List.range len).map fun i => mem.getD (off + i) 0

/-- Overwrite `mem` with `bytes` starting at `off`, growing the memory
(zero-filled) as needed. -/
def memStore (mem : List Nat) (off : Nat) (bytes : List Nat) : List Nat :=
  (List.range (max mem.length (off + bytes.length))).map fun i =>
    if off ≤ i ∧ i < off + bytes.length then bytes.getD (i - off) 0 else mem.getD i 0

/-- Operation `Memory::set(offset, value, Some(target_len))`: writes the first
`min (value.length) targetLen` bytes of `value` at `offset` and zero-fills
the region up to `targetLen`; fails when the region exceeds the memory
limit.  Modelled from the spec: sections 4.2 and 4.2.2 (zero-fill beyond
the source, expansion failure fatal). -/
def memSet (m : Machine) (off : Nat) (value : List Nat) (targetLen : Nat) :
    Except ExitError Machine :=
  if off + targetLen > m.memoryLimit then .error .MemoryExpansion
  else .ok { m with
    memory := memStore m.memory off
      (value.take targetLen ++ List.replicate (targetLen - value.length) 0) }

/-- Operation `Memory::copy_large(memory_offset, data_offset, len, data)`: the large
copy used by EXTCODECOPY and RETURNDATACOPY.  The portion of the
destination overlapping the source receives source bytes and the tail is
zero-filled; offsets or lengths that do not fit a native index are fatal.
Modelled from the spec: section 4.2, large memory copy. -/
def copyLarge (m : Machine) (memOff dataOff len : Word) (data : List Nat) :
    Except ExitError Machine :=
  if memOff ≥ USIZE then .error .OutOfOffset
  else if len ≥ USIZE then .error .OutOfOffset
  else
    let src := if dataOff ≥ data.length then [] else (data.drop dataOff).take len
    memSet m memOff src len

/-- Result type of an environment opcode evaluation: the control outcome,
the runtime as left behind, and the trace of host interactions performed. -/
abbrev EvalResult := Control × Runtime × List HEvent

/-- Big-endian byte encoding of `v` on `n` bytes (most significant first). -/
def beBytes (n v : Nat) : List Nat :=
  (List.range n).map fun i => v / 256 ^ (n - 1 - i) % 256

/-- Routine `sstore` from `runtime/src/eval/system.rs`: pop `index` and `value`,
ask the host to write storage, exit with the host's error on failure. -/
def evalSstore (h : Handler) (r0 : Runtime) : EvalResult :=
  match popW r0 with
  | .error (e, r) => (.Exit (.error e), r, [])
  | .ok (index, r) =>
    match popW r with
    | .error (e, r) => (.Exit (.error e), r, [])
    | .ok (value, r) =>
      match h.setStorage r.context.address index value with
      | .ok _ => (.Continue, r, [.setStorageEv r.context.address index value])
      | .error e => (.Exit (.error e), r, [.setStorageEv r.context.address index value])

/-- Pop `n` topic words for LOGn, in stack order. -/
def popTopics : Nat → Runtime → Except (ExitError × Runtime) (List Word × Runtime)
  | 0, r => .ok ([], r)
  | n + 1, r =>
    match popW r with
    | .error er => .error er
    | .ok (t, r1) =>
      match popTopics n r1 with
      | .error er => .error er
      | .ok (ts, r2) => .ok (t :: ts, r2)

/-- Routine `log` from `runtime/src/eval/system.rs`: pop `offset` and `len`,
convert both to native indices, snapshot the memory slice, pop `n` topics,
then emit the log through the host; a host error exits the frame. -/
def evalLog (n : Nat) (h : Handler) (r0 : Runtime) : EvalResult :=
  match popW2 r0 with
  | .error (e, r) => (.Exit (.error e), r, [])
  | .ok ((offset, len), r) =>
    match asUsizeOrFail offset r with
    | .error (e, r) => (.Exit (.error e), r, [])
    | .ok offset =>
      match asUsizeOrFail len r with
      | .error (e, r) => (.Exit (.error e), r, [])
      | .ok len =>
        let data := memGet r.machine.memory offset len
        match popTopics n r with
        | .error (e, r) => (.Exit (.error e), r, [])
        | .ok (topics, r) =>
          match h.log r.context.address topics data with
          | .ok _ => (.Continue, r, [.logEv r.context.address topics data])
          | .error e => (.Exit (.error e), r, [.logEv r.context.address topics data])

/-- Routine `suicide` from `runtime/src/eval/system.rs`: pop the target, ask the
host for the executing account's balance, transfer it all to the target,
then mark the executing account for deletion and exit with `Suicided`; a
failing transfer (or a failing `mark_delete`) exits with the host's
error, and a failing transfer prevents `mark_delete` from being called. -/
def evalSuicide (h : Handler) (r0 : Runtime) : EvalResult :=
  match popW r0 with
  | .error (e, r) => (.Exit (.error e), r, [])
  | .ok (target, r) =>
    let balance := h.balance r.context.address
    let t : Transfer := ⟨r.context.address, target % ADDRMOD, balance⟩
    match h.transfer t with
    | .error e => (.Exit (.error e), r, [.balanceEv r.context.address, .transferEv t])
    | .ok _ =>
      match h.markDelete r.context.address with
      | .error e => (.Exit (.error e), r,
          [.balanceEv r.context.address, .transferEv t, .markDeleteEv r.context.address])
      | .ok _ => (.Exit (.ok .Suicided), r,
          [.balanceEv r.context.address, .transferEv t, .markDeleteEv r.context.address])

/-- Operand decoding prefix of `create` (`runtime/src/eval/system.rs`,
everything before the first host interaction): pop `value`, `code_offset`
and `len`, convert the offsets, snapshot the init code from memory, and
compute the creation scheme - for CREATE2 this pops the `salt` and feeds
`0xff`, the 20 caller bytes, the 32 salt bytes and the 32 bytes of the
Keccak-256 hash of the init code, in that order, to a fresh Keccak-256
hasher whose result, converted to `H160` (low 20 bytes), becomes the fixed
target.  The external Keccak-256 function is a parameter. -/
def createPopPhase (keccak : List Nat → Nat) (isCreate2 : Bool) (r0 : Runtime) :
    Except (ExitError × Runtime) ((Word × List Nat × CreateScheme) × Runtime) :=
  match popW r0 with
  | .error er => .error er
  | .ok (value, r) =>
  match popW r with
  | .error er => .error er
  | .ok (codeOffset, r) =>
  match popW r with
  | .error er => .error er
  | .ok (len, r) =>
  match asUsizeOrFail codeOffset r with
  | .error er => .error er
  | .ok codeOffset =>
  match asUsizeOrFail len r with
  | .error er => .error er
  | .ok len =>
  let code := memGet r.machine.memory codeOffset len
  match isCreate2 with
  | true =>
    match popW r with
    | .error er => .error er
    | .ok (salt, r) =>
      let codeHash := keccak code
      let buf1 : List Nat := [] ++ [0xff]
      let buf2 := buf1 ++ beBytes 20 r.context.address
      let buf3 := buf2 ++ beBytes 32 salt
      let buf4 := buf3 ++ beBytes 32 codeHash
      let target := keccak buf4 % ADDRMOD
      .ok ((value, code, CreateScheme.Fixed target), r)
  | false => .ok ((value, code, CreateScheme.Dynamic), r)

/-- Routine `create` from `runtime/src/eval/system.rs` (CREATE when `isCreate2` is
`false`, CREATE2 when it is `true`).  After decoding, the host allocates
the target address (`create_address`); on failure a zero is pushed and the
frame continues when the host is recoverable, else exits with the error.
Then the child context and the transfer are built and the host is asked to
run the creation: an immediate exit pushes the created address, a trap
pushes a zero placeholder and yields a create interrupt, and a host error
pushes zero and follows the recoverability policy. -/
def evalCreate (keccak : List Nat → Nat) (h : Handler) (isCreate2 : Bool)
    (r0 : Runtime) : EvalResult :=
  match createPopPhase keccak isCreate2 r0 with
  | .error (e, r) => (.Exit (.error e), r, [])
  | .ok ((value, code, scheme), r) =>
    let caEvent := HEvent.createAddressEv r.context.address scheme
    match h.createAddress r.context.address scheme with
    | .error e =>
      match pushW r 0 with
      | .ok r2 =>
        if h.isRecoverable then (.Continue, r2, [caEvent, .isRecoverableEv])
        else (.Exit (.error e), r2, [caEvent, .isRecoverableEv])
      | .error (e2, r2) => (.Exit (.error e2), r2, [caEvent])
    | .ok createAddr =>
      let childCtx : Context := ⟨createAddr, r.context.address, value⟩
      let transfer : Option Transfer := some ⟨r.context.address, createAddr, value⟩
      let cEvent := HEvent.createEv createAddr transfer code none childCtx
      match h.create createAddr transfer code none childCtx with
      | .ok (.exit _) =>
        match pushW r createAddr with
        | .ok r2 => (.Continue, r2, [caEvent, cEvent])
        | .error (e2, r2) => (.Exit (.error e2), r2, [caEvent, cEvent])
      | .ok (.trap i) =>
        match pushW r 0 with
        | .ok r2 => (.CreateInterrupt i, r2, [caEvent, cEvent])
        | .error (e2, r2) => (.Exit (.error e2), r2, [caEvent, cEvent])
      | .error e =>
        match pushW r 0 with
        | .ok r2 =>
          if h.isRecoverable then (.Continue, r2, [caEvent, cEvent, .isRecoverableEv])
          else (.Exit (.error e), r2, [caEvent, cEvent, .isRecoverableEv])
        | .error (e2, r2) => (.Exit (.error e2), r2, [caEvent, cEvent])

/-- The decoded operands of a CALL-family opcode.  `gas` is the value
passed to the host (stipend already applied). -/
structure CallOperands where
  gas : Nat
  toWord : Word
  value : Word
  inOffset : Nat
  inLen : Nat
  outOffset : Nat
  outLen : Nat
deriving DecidableEq

/-- Operand decoding prefix of `call` (`runtime/src/eval/system.rs`,
everything before the host call): pop `gas` and `to`, convert `gas` to a
native integer, pop `value` for CALL/CALLCODE (DELEGATECALL and STATICCALL
fix it to zero), add `config.call_stipend` to the gas when the value is
non-zero (a `usize` addition, hence the wrap modulo `USIZE`), then pop and
convert the four input/output region operands. -/
def callPopPhase (r0 : Runtime) (scheme : CallScheme) :
    Except (ExitError × Runtime) (CallOperands × Runtime) :=
  match popW r0 with
  | .error er => .error er
  | .ok (gas0, r) =>
  match popW r with
  | .error er => .error er
  | .ok (toWord, r) =>
  match asUsizeOrFail gas0 r with
  | .error er => .error er
  | .ok gas1 =>
  match (match scheme with
         | .Call | .CallCode => popW r
         | .DelegateCall | .StaticCall => .ok (0, r)) with
  | .error er => .error er
  | .ok (value, r) =>
  let gas2 := if value ≠ 0 then (gas1 + r.config.callStipend) % USIZE else gas1
  match popW4 r with
  | .error er => .error er
  | .ok ((inOffset, inLen, outOffset, outLen), r) =>
  match asUsizeOrFail inOffset r with
  | .error er => .error er
  | .ok inOffset =>
  match asUsizeOrFail inLen r with
  | .error er => .error er
  | .ok inLen =>
  match asUsizeOrFail outOffset r with
  | .error er => .error er
  | .ok outOffset =>
  match asUsizeOrFail outLen r with
  | .error er => .error er
  | .ok outLen =>
  .ok (⟨gas2, toWord, value, inOffset, inLen, outOffset, outLen⟩, r)

/-- The child context a CALL-family opcode passes to the host, per scheme
(the `context` binding of `call` in the source): CALL and STATICCALL run
the callee at its own address with the caller set to the current frame;
CALLCODE runs at the current address; DELEGATECALL keeps the current
address, the current frame's caller and its apparent value. -/
def callContextOf (scheme : CallScheme) (r : Runtime) (ops : CallOperands) : Context :=
  match scheme with
  | .Call | .StaticCall => ⟨ops.toWord % ADDRMOD, r.context.address, ops.value⟩
  | .CallCode => ⟨r.context.address, r.context.address, ops.value⟩
  | .DelegateCall => ⟨r.context.address, r.context.caller, r.context.apparentValue⟩

/-- The transfer a CALL-family opcode passes to the host (the `transfer`
binding of `call` in the source): CALL moves the value to the callee,
CALLCODE moves it from the current account to itself, DELEGATECALL and
STATICCALL pass no transfer. -/
def callTransferOf (scheme : CallScheme) (r : Runtime) (ops : CallOperands) :
    Option Transfer :=
  if scheme = .Call then some ⟨r.context.address, ops.toWord % ADDRMOD, ops.value⟩
  else if scheme = .CallCode then
    some ⟨r.context.address, r.context.address, ops.value⟩
  else none

/-- Routine `call` from `runtime/src/eval/system.rs`.  After decoding, the input
slice is read from memory, the child context and optional transfer are
built per scheme, and the host runs the call: on an immediate exit the
return data is recorded in `return_data_buffer` and written to the output
region, then a `1` is pushed (the child's exit reason is discarded by the
source); a failing output write pushes `0` and follows the recoverability
policy; a trap pushes a `0` placeholder and yields a call interrupt; a
host error pushes `0` and follows the recoverability policy. -/
def evalCall (h : Handler) (scheme : CallScheme) (r0 : Runtime) : EvalResult :=
  match callPopPhase r0 scheme with
  | .error (e, r) => (.Exit (.error e), r, [])
  | .ok (ops, r) =>
    let input := memGet r.machine.memory ops.inOffset ops.inLen
    let childCtx := callContextOf scheme r ops
    let transfer := callTransferOf scheme r ops
    let callEvent := HEvent.callEv (ops.toWord % ADDRMOD) transfer input (some ops.gas)
      (scheme = .StaticCall) childCtx
    match h.call (ops.toWord % ADDRMOD) transfer input (some ops.gas)
        (scheme = .StaticCall) childCtx with
    | .ok (.exit (_, returnData)) =>
      let r1 := { r with returnDataBuffer := returnData }
      match memSet r1.machine ops.outOffset r1.returnDataBuffer ops.outLen with
      | .ok m =>
        match pushW { r1 with machine := m } 1 with
        | .ok r2 => (.Continue, r2, [callEvent])
        | .error (e2, r2) => (.Exit (.error e2), r2, [callEvent])
      | .error e =>
        match pushW r1 0 with
        | .ok r2 =>
          if h.isRecoverable then (.Continue, r2, [callEvent, .isRecoverableEv])
          else (.Exit (.error e), r2, [callEvent, .isRecoverableEv])
        | .error (e2, r2) => (.Exit (.error e2), r2, [callEvent])
    | .ok (.trap i) =>
      match pushW r 0 with
      | .ok r2 => (.CallInterrupt i, r2, [callEvent])
      | .error (e2, r2) => (.Exit (.error e2), r2, [callEvent])
    | .error e =>
      match pushW r 0 with
      | .ok r2 =>
        if h.isRecoverable then (.Continue, r2, [callEvent, .isRecoverableEv])
        else (.Exit (.error e), r2, [callEvent, .isRecoverableEv])
      | .error (e2, r2) => (.Exit (.error e2), r2, [callEvent])

/-- Routine `returndatacopy` from `runtime/src/eval/system.rs`: pop
`memory_offset`, `data_offset` and `len`, then run the large copy from
`return_data_buffer` into memory; a copy error exits the frame.  The
source performs no range check of its own against the buffer length. -/
def evalReturndatacopy (r0 : Runtime) : EvalResult :=
  match popW r0 with
  | .error (e, r) => (.Exit (.error e), r, [])
  | .ok (memOff, r) =>
  match popW r with
  | .error (e, r) => (.Exit (.error e), r, [])
  | .ok (dataOff, r) =>
  match popW r with
  | .error (e, r) => (.Exit (.error e), r, [])
  | .ok (len, r) =>
    match copyLarge r.machine memOff dataOff len r.returnDataBuffer with
    | .ok m => (.Continue, { r with machine := m }, [])
    | .error e => (.Exit (.error e), r, [])

/-- Result of one `Runtime::step` invocation: `ok` is Rust `Ok(())`,
`exit` is `Err(Capture::Exit(reason))`, and the two trap forms are
`Err(Capture::Trap(Resolve::Call/Create(..)))` with the host's interrupt
token (the paired resolve handle is implicit). -/
inductive StepOutcome
  | ok
  | exit (r : ExitReason)
  | trapCall (i : Nat)
  | trapCreate (i : Nat)
deriving DecidableEq

/-- Semantics of one inner-machine step (`Machine::step`): the inner
arithmetic/stack/memory machine is an external collaborator, so its step
function is a parameter of the driver; it returns the mutated machine and
either pure progress, an inner exit, or a trap carrying the opcode the
inner machine does not handle. -/
abbrev InnerStep := Machine → (Except (Capture ExitReason Nat) Unit) × Machine

/-- Contract of the inner machine (section 4.1): when `Machine::step`
reports an inner exit it has moved the machine itself into the exited
state with that reason. -/
def InnerStepExits (istep : InnerStep) : Prop :=
  ∀ m reason m', istep m = (.error (.exit reason), m') → m'.position = .exited reason

/-- Semantics of the environment-opcode dispatch (`eval::eval` in
`runtime/src/eval/mod.rs`): given the handler, the runtime and the trapped
opcode it produces a control outcome, the mutated runtime and the host
interaction trace. -/
abbrev EvalFn := Handler → Runtime → Nat → EvalResult

/-- Contract of the environment-opcode table: no environment opcode
routine writes the `status` field (in the source the routines only touch
the machine, the return data buffer and the host). -/
def EvalKeepsStatus (evalFn : EvalFn) : Prop :=
  ∀ h r op, ((evalFn h r op).2.1).status = r.status

/-- The pre-validation prefix of the `step!` macro of
`runtime/src/lib.rs`: when a current opcode exists the host is consulted
with the context, the opcode and the stack view; a failure moves the
machine into the exited state and records the error as the terminal
status. -/
def preStep (h : Handler) (r : Runtime) : Runtime × List HEvent :=
  match r.machine.inspect with
  | none => (r, [])
  | some (op, stk) =>
    match h.preValidate r.context op stk with
    | .ok _ => (r, [.preValidateEv r.context op stk])
    | .error e =>
      ({ r with machine := r.machine.exit (.error e), status := some (.error e) },
       [.preValidateEv r.context op stk])

/-- The `step!` macro of `runtime/src/lib.rs` (driving `Runtime::step`):
pre-validation first, then the short-circuit on an `Err` status, then one
inner-machine step whose trap is dispatched to the environment opcode
table; every exit produced also moves the inner machine into the exited
state and records the terminal status. -/
def stepRT (istep : InnerStep) (evalFn : EvalFn) (h : Handler) (r0 : Runtime) :
    StepOutcome × Runtime × List HEvent :=
  match preStep h r0 with
  | (r1, ev1) =>
    match r1.status with
    | some exitReason => (.exit exitReason, r1, ev1)
    | none =>
      match istep r1.machine with
      | (.ok _, m') => (.ok, { r1 with machine := m' }, ev1)
      | (.error (.exit e), m') =>
        (.exit e, { r1 with machine := m', status := some e }, ev1)
      | (.error (.trap op), m') =>
        match evalFn h { r1 with machine := m' } op with
        | (.Continue, r3, evs) => (.ok, r3, ev1 ++ evs)
        | (.CallInterrupt i, r3, evs) => (.trapCall i, r3, ev1 ++ evs)
        | (.CreateInterrupt i, r3, evs) => (.trapCreate i, r3, ev1 ++ evs)
        | (.Exit e, r3, evs) =>
          (.exit e, { r3 with machine := r3.machine.exit e, status := some e },
           ev1 ++ evs)

/-- Operation `Runtime::run`: repeat `step` until it yields an exit or a trap.  The
source loops without bound, so the embedding takes fuel; `none` means the
fuel ran out while the machine kept making pure progress. -/
def runRT (istep : InnerStep) (evalFn : EvalFn) (h : Handler) :
    Nat → Runtime → List HEvent → Option (StepOutcome × Runtime × List HEvent)
  | 0, _, _ => none
  | fuel + 1, r, acc =>
    match stepRT istep evalFn h r with
    | (.ok, r', evs) => runRT istep evalFn h fuel r' (acc ++ evs)
    | (out, r', evs) => some (out, r', acc ++ evs)

/-- Runtime states reachable from a freshly constructed `Runtime` by
`step` invocations (each step may use a different handler). -/
inductive Reach (istep : InnerStep) (evalFn : EvalFn) : Runtime → Prop
  | base (code callData : List Nat) (ctx : Context) (cfg : Config) :
      Reach istep evalFn (Runtime.new code callData ctx cfg)
  | next (h : Handler) (r : Runtime) :
      Reach istep evalFn r → Reach istep evalFn (stepRT istep evalFn h r).2.1

/-- The driver invariant: whenever the terminal status is recorded, the
inner machine has been moved into an exited state. -/
def StatusInv (r : Runtime) : Prop :=
  r.status.isSome = true → r.machine.isExited = true

theorem inspect_of_exited (m : Machine) (hm : m.isExited = true) :
    m.inspect = none := by
  unfold Machine.isExited at hm
  unfold Machine.inspect
  cases h : m.position with
  | running pc => rw [h] at hm; simp at hm
  | exited e => rfl

theorem preStep_inv (h : Handler) (r : Runtime) (hr : StatusInv r) :
    StatusInv (preStep h r).1 := by
  unfold preStep
  cases hi : r.machine.inspect with
  | none => simpa using hr
  | some p =>
    obtain ⟨op, stk⟩ := p
    cases hv : h.preValidate r.context op stk with
    | ok u => simp only [hv]; simpa using hr
    | error e =>
      simp only [hv]
      intro _
      simp [Machine.isExited, Machine.exit]

theorem stepRT_inv (istep : InnerStep) (evalFn : EvalFn)
    (hist : InnerStepExits istep) (hev : EvalKeepsStatus evalFn)
    (h : Handler) (r : Runtime) (hr : StatusInv r) :
    StatusInv (stepRT istep evalFn h r).2.1 := by
  have hpre : StatusInv (preStep h r).1 := preStep_inv h r hr
  unfold stepRT
  rcases hq : preStep h r with ⟨r1, ev1⟩
  rw [hq] at hpre
  cases hs : r1.status with
  | some e => simpa [hs] using hpre
  | none =>
    rcases hi : istep r1.machine with ⟨res, m'⟩
    cases res with
    | ok u =>
      simp only [hs, hi]
      intro hcontra
      simp [hs] at hcontra
    | error cap =>
      cases cap with
      | exit e =>
        simp only [hs, hi]
        intro _
        have := hist r1.machine e m' hi
        simp [Machine.isExited, this]
      | trap op =>
        rcases he : evalFn h { r1 with machine := m' } op with ⟨ctl, r3, evs⟩
        have hst : r3.status = none := by
          have h2 := hev h { r1 with machine := m' } op
          rw [he] at h2
          simpa [hs] using h2
        rw [hs] at he
        simp only [hs, hi, he]
        cases ctl with
        | Continue => intro hcontra; simp [hst] at hcontra
        | CallInterrupt i => intro hcontra; simp [hst] at hcontra
        | CreateInterrupt i => intro hcontra; simp [hst] at hcontra
        | Exit e =>
          intro _
          simp [Machine.isExited, Machine.exit]

theorem reach_inv (istep : InnerStep) (evalFn : EvalFn)
    (hist : InnerStepExits istep) (hev : EvalKeepsStatus evalFn)
    (r : Runtime) (hr : Reach istep evalFn r) : StatusInv r := by
  induction hr with
  | base code callData ctx cfg => intro hs; simp [Runtime.new] at hs
  | next h r hr ih => exact stepRT_inv istep evalFn hist hev h r ih

/-- C4: once the runtime's status is `Err(reason)` - for any state reachable
from a freshly constructed runtime, under the inner machine's contract (an
inner exit leaves the machine exited) and the dispatch table's contract (no
environment opcode writes `status`) - every subsequent invocation of `step`
returns `Capture::Exit` with that same reason, leaves the runtime (hence its
stack, memory and return data buffer) unchanged, and performs no host
interaction; `run` re-emits the same exit in the same way. -/
theorem status_sticky_step_and_run
    (istep : InnerStep) (evalFn : EvalFn)
    (hist : InnerStepExits istep) (hev : EvalKeepsStatus evalFn)
    (h : Handler) (r : Runtime) (reason : ExitReason)
    (hreach : Reach istep evalFn r) (hs : r.status = some reason) :
    stepRT istep evalFn h r = (.exit reason, r, []) ∧
    ∀ fuel, runRT istep evalFn h (fuel + 1) r [] = some (.exit reason, r, []) := by
  have hinv : StatusInv r := reach_inv istep evalFn hist hev r hreach
  have hex : r.machine.isExited = true := hinv (by simp [hs])
  have hin : r.machine.inspect = none := inspect_of_exited _ hex
  have hpre : preStep h r = (r, []) := by simp [preStep, hin]
  have hstep : stepRT istep evalFn h r = (.exit reason, r, []) := by
    unfold stepRT
    rw [hpre]
    simp only [hs]
  refine ⟨hstep, fun fuel => ?_⟩
  unfold runRT
  rw [hstep]
  simp

/-- An inner machine that immediately reports a `Stopped` inner exit. -/
def trivialInnerStep : InnerStep :=
  fun m => (.error (.exit (.ok .Stopped)), m.exit (.ok .Stopped))

theorem trivialInnerStep_exits : InnerStepExits trivialInnerStep := by
  intro m reason m' hstep
  simp only [trivialInnerStep, Prod.mk.injEq] at hstep
  obtain ⟨h1, h2⟩ := hstep
  cases h1
  rw [← h2]
  rfl

/-- An environment opcode table that always continues without effects. -/
def trivialEvalFn : EvalFn := fun _ r _ => (.Continue, r, [])

/-- A host whose pre-validation always reports out-of-gas. -/
def haltingHandler : Handler where
  balance := fun _ => 0
  preValidate := fun _ _ _ => .error .OutOfGas
  setStorage := fun _ _ _ => .ok ()
  log := fun _ _ _ => .ok ()
  transfer := fun _ => .ok ()
  markDelete := fun _ => .ok ()
  createAddress := fun _ _ => .ok 0
  create := fun _ _ _ _ _ => .ok (.exit (.ok .Stopped))
  call := fun _ _ _ _ _ _ => .ok (.exit (.ok .Stopped, []))
  isRecoverable := false

/-- The runtime obtained by stepping a fresh frame once into the
pre-validation failure of `haltingHandler`: its status is terminal. -/
def stuckRuntime : Runtime :=
  (stepRT trivialInnerStep trivialEvalFn haltingHandler
    (Runtime.new [0] [] ⟨0, 0, 0⟩ Config.frontier)).2.1

theorem status_sticky_step_and_run_witness :
    stepRT trivialInnerStep trivialEvalFn haltingHandler stuckRuntime =
      (.exit (.error .OutOfGas), stuckRuntime, []) ∧
    runRT trivialInnerStep trivialEvalFn haltingHandler 1 stuckRuntime [] =
      some (.exit (.error .OutOfGas), stuckRuntime, []) := by
  have H := status_sticky_step_and_run trivialInnerStep trivialEvalFn
    trivialInnerStep_exits (fun _ _ _ => rfl) haltingHandler stuckRuntime
    (.error .OutOfGas)
    (Reach.next haltingHandler _ (Reach.base [0] [] ⟨0, 0, 0⟩ Config.frontier))
    (by decide)
  exact ⟨H.1, H.2 0⟩

/-- Fixture constructor: a mid-execution runtime frame with the given
stack, memory, return data buffer, context and configuration. -/
def mkRuntime (stack : List Word) (memory buffer : List Nat)
    (ctx : Context) (cfg : Config) : Runtime :=
  ⟨⟨[], [], stack, memory, cfg.stackLimit, cfg.memoryLimit, .running 0⟩,
   none, buffer, ctx, cfg⟩

/-- The forwarded gas of the first host `call` of a trace, if any. -/
def firstCallGas : List HEvent → Option (Option Nat)
  | [] => none
  | .callEv _ _ _ g _ _ :: _ => some g
  | _ :: tl => firstCallGas tl

/-- A host whose nested call completes immediately with a FAILURE exit
reason (`Err(OutOfGas)`) and return bytes `[9, 9]`. -/
def failExitCallHandler : Handler where
  balance := fun _ => 0
  preValidate := fun _ _ _ => .ok ()
  setStorage := fun _ _ _ => .ok ()
  log := fun _ _ _ => .ok ()
  transfer := fun _ => .ok ()
  markDelete := fun _ => .ok ()
  createAddress := fun _ _ => .ok 0
  create := fun _ _ _ _ _ => .ok (.exit (.ok .Stopped))
  call := fun _ _ _ _ _ _ => .ok (.exit (.error .OutOfGas, [9, 9]))
  isRecoverable := false

/-- CALL operands `gas = 0`, `to = 7`, `value = 0`, empty input region,
two-byte output region. -/
def c1Runtime : Runtime :=
  mkRuntime [0, 7, 0, 0, 0, 0, 2] [] [] ⟨5, 6, 7⟩ Config.frontier

/-- C1 (code bug): a CALL whose host call completes immediately with the
FAILURE exit reason `Err(OutOfGas)` still pushes `1` - the source matches
`Ok(Capture::Exit((_, return_data)))` and discards the child's exit
reason - while the claim (and section 4.2.2 of the spec) requires `0` to
be pushed on immediate failure.  The return data buffer is set to the
returned bytes, as claimed. -/
theorem call_exit_reason_discarded :
    failExitCallHandler.call 7 (some ⟨5, 7, 0⟩) [] (some 0) false ⟨7, 5, 0⟩ =
      .ok (.exit (.error .OutOfGas, [9, 9])) ∧
    (evalCall failExitCallHandler .Call c1Runtime).1 = .Continue ∧
    ((evalCall failExitCallHandler .Call c1Runtime).2.1).machine.stack = [1] ∧
    ((evalCall failExitCallHandler .Call c1Runtime).2.1).returnDataBuffer = [9, 9] := by
  decide

/-- A host that allocates address `5` for creation and whose nested create
completes immediately with the FAILURE exit reason `Err(OutOfGas)`. -/
def failExitCreateHandler : Handler where
  balance := fun _ => 0
  preValidate := fun _ _ _ => .ok ()
  setStorage := fun _ _ _ => .ok ()
  log := fun _ _ _ => .ok ()
  transfer := fun _ => .ok ()
  markDelete := fun _ => .ok ()
  createAddress := fun _ _ => .ok 5
  create := fun _ _ _ _ _ => .ok (.exit (.error .OutOfGas))
  call := fun _ _ _ _ _ _ => .ok (.exit (.ok .Stopped, []))
  isRecoverable := false

/-- CREATE operands `value = 0`, `code_offset = 0`, `len = 0`. -/
def c2Runtime : Runtime :=
  mkRuntime [0, 0, 0] [] [] ⟨5, 6, 7⟩ Config.frontier

/-- C2 (code bug): a CREATE whose host create returns an immediate exit
with the FAILURE reason `Err(OutOfGas)` still pushes the created address
`5` (not zero) - the source matches `Ok(Capture::Exit(_))` and discards
the child's exit reason - while the claim (and section 4.2.1 of the spec)
requires zero for an in-host failure surfaced as a return. -/
theorem create_exit_reason_discarded :
    failExitCreateHandler.create 5 (some ⟨5, 5, 0⟩) [] none ⟨5, 5, 0⟩ =
      .ok (.exit (.error .OutOfGas)) ∧
    (evalCreate (fun _ => 0) failExitCreateHandler false c2Runtime).1 = .Continue ∧
    ((evalCreate (fun _ => 0) failExitCreateHandler false c2Runtime).2.1).machine.stack
      = [5] := by
  decide

/-- RETURNDATACOPY operands `memory_offset = 0`, `data_offset = 0`,
`len = 8` over a four-byte return data buffer. -/
def c7Runtime : Runtime :=
  mkRuntime [0, 0, 8] [] [1, 2, 3, 4] ⟨5, 6, 7⟩ Config.frontier

/-- C7 (code bug): RETURNDATACOPY with `data_offset + len = 8` exceeding
the 4-byte return data buffer does NOT terminate the frame - the source
routes the copy straight through the large-copy primitive, which
truncates the source and zero-fills the tail - so the frame continues and
bytes are written to memory, while the claim (and scenario 3 of the spec)
requires a fatal error with no bytes written. -/
theorem returndatacopy_out_of_range_not_fatal :
    (0 : Nat) + 8 > c7Runtime.returnDataBuffer.length ∧
    (evalReturndatacopy c7Runtime).1 = .Continue ∧
    ((evalReturndatacopy c7Runtime).2.1).machine.memory = [1, 2, 3, 4, 0, 0, 0, 0] := by
  decide

/-- A host whose nested call completes immediately with `Ok(Stopped)` and
no return data. -/
def okCallHandler : Handler where
  balance := fun _ => 0
  preValidate := fun _ _ _ => .ok ()
  setStorage := fun _ _ _ => .ok ()
  log := fun _ _ _ => .ok ()
  transfer := fun _ => .ok ()
  markDelete := fun _ => .ok ()
  createAddress := fun _ _ => .ok 0
  create := fun _ _ _ _ _ => .ok (.exit (.ok .Stopped))
  call := fun _ _ _ _ _ _ => .ok (.exit (.ok .Stopped, []))
  isRecoverable := false

/-- CALL operands with the maximal representable requested gas
`usize::MAX = USIZE - 1` and `value = 1`. -/
def c5Runtime : Runtime :=
  mkRuntime [USIZE - 1, 0, 1, 0, 0, 0, 0] [] [] ⟨5, 6, 7⟩ Config.frontier

/-- C5 (counterexample): with requested gas `usize::MAX` and a non-zero
value, the `usize` addition `gas += call_stipend` wraps, so the gas
forwarded to the host is `2299`, not `usize::MAX + 2300`: the claimed
equality fails at this input (the sum is not even representable in the
`usize` gas parameter). -/
theorem call_stipend_overflow_counterexample :
    firstCallGas (evalCall okCallHandler .Call c5Runtime).2.2 = some (some 2299) ∧
    2299 ≠ (USIZE - 1) + Config.frontier.callStipend := by
  decide

@[simp] theorem setStack_setStack (r : Runtime) (a b : List Word) :
    setStack (setStack r a) b = setStack r b := rfl

theorem setStack_eq_self (r : Runtime) (s : List Word)
    (hs : r.machine.stack = s) : setStack r s = r := by
  cases r with
  | mk m st buf ctx cfg =>
    cases m with
    | mk c d stk mem sl ml pos =>
      cases hs
      rfl

/-- C6: SUICIDE pops the target address and asks the host to transfer the
executing account's full balance (as reported by `handler.balance`) from
the executing address to the target; on success it calls `mark_delete` on
the executing address and exits with the `Suicided` success reason (a
failing `mark_delete` exits with its error); if the transfer returns an
error, `mark_delete` is never invoked (no such event occurs) and the frame
exits with the transfer's error. -/
theorem suicide_transfer_then_mark_delete
    (h : Handler) (r : Runtime) (target : Word) (rest : List Word)
    (hs : r.machine.stack = target :: rest) :
    (h.transfer ⟨r.context.address, target % ADDRMOD, h.balance r.context.address⟩ =
        .ok () →
      h.markDelete r.context.address = .ok () →
      evalSuicide h r = (.Exit (.ok .Suicided), setStack r rest,
        [.balanceEv r.context.address,
         .transferEv ⟨r.context.address, target % ADDRMOD, h.balance r.context.address⟩,
         .markDeleteEv r.context.address])) ∧
    (∀ e, h.transfer ⟨r.context.address, target % ADDRMOD,
        h.balance r.context.address⟩ = .error e →
      evalSuicide h r = (.Exit (.error e), setStack r rest,
        [.balanceEv r.context.address,
         .transferEv ⟨r.context.address, target % ADDRMOD, h.balance r.context.address⟩])) ∧
    (∀ e, h.transfer ⟨r.context.address, target % ADDRMOD,
        h.balance r.context.address⟩ = .ok () →
      h.markDelete r.context.address = .error e →
      evalSuicide h r = (.Exit (.error e), setStack r rest,
        [.balanceEv r.context.address,
         .transferEv ⟨r.context.address, target % ADDRMOD, h.balance r.context.address⟩,
         .markDeleteEv r.context.address])) := by
  refine ⟨fun h1 h2 => ?_, fun e h1 => ?_, fun e h1 h2 => ?_⟩
  · simp only [evalSuicide, popW, hs, setStack_context]
    simp [h1, h2]
  · simp only [evalSuicide, popW, hs, setStack_context]
    simp [h1]
  · simp only [evalSuicide, popW, hs, setStack_context]
    simp [h1, h2]

theorem suicide_transfer_then_mark_delete_witness :
    evalSuicide okCallHandler (mkRuntime [9] [] [] ⟨1, 2, 3⟩ Config.frontier) =
      (.Exit (.ok .Suicided),
       setStack (mkRuntime [9] [] [] ⟨1, 2, 3⟩ Config.frontier) [],
       [.balanceEv 1, .transferEv ⟨1, 9 % ADDRMOD, 0⟩, .markDeleteEv 1]) := by
  exact (suicide_transfer_then_mark_delete okCallHandler
    (mkRuntime [9] [] [] ⟨1, 2, 3⟩ Config.frontier) 9 [] rfl).1 rfl rfl

/-- The CREATE2 target address as the spec words it: the low 20 bytes of
the Keccak-256 hash of the concatenation of the byte `0xff`, the caller
address on 20 bytes, the 32-byte salt, and the 32-byte Keccak-256 hash of
the init code. -/
def create2Target (keccak : List Nat → Nat) (caller : Address) (salt : Word)
    (code : List Nat) : Address :=
  keccak ([0xff] ++ beBytes 20 caller ++ beBytes 32 salt ++ beBytes 32 (keccak code))
    % ADDRMOD

/-- Whatever the host answers, the trace of `create` starts with the
`create_address` request carrying the computed scheme. -/
theorem evalCreate_events_head (keccak : List Nat → Nat) (h : Handler) (isC2 : Bool)
    (r : Runtime) (value : Word) (code : List Nat) (scheme : CreateScheme)
    (r1 : Runtime)
    (hphase : createPopPhase keccak isC2 r = .ok ((value, code, scheme), r1)) :
    ((evalCreate keccak h isC2 r).2.2).head? =
      some (HEvent.createAddressEv r1.context.address scheme) := by
  unfold evalCreate
  simp only [hphase]
  repeat' split
  all_goals rfl

/-- C3: for every caller address, salt and init code (and any Keccak-256
function), the CREATE2 decoding computes the fixed creation scheme whose
target is `create2Target` - the low 20 bytes of Keccak-256 of
`0xff ++ caller(20) ++ salt(32) ++ Keccak-256(code)(32)` - and the
`create_address` request passed to the host carries exactly that scheme. -/
theorem create2_scheme_matches_spec
    (keccak : List Nat → Nat) (h : Handler) (r : Runtime)
    (value cOff cLen salt : Word) (rest : List Word)
    (hs : r.machine.stack = value :: cOff :: cLen :: salt :: rest)
    (h1 : cOff < USIZE) (h2 : cLen < USIZE) :
    createPopPhase keccak true r =
      .ok ((value, memGet r.machine.memory cOff cLen,
        CreateScheme.Fixed (create2Target keccak r.context.address salt
          (memGet r.machine.memory cOff cLen))), setStack r rest) ∧
    ((evalCreate keccak h true r).2.2).head? =
      some (HEvent.createAddressEv r.context.address
        (CreateScheme.Fixed (create2Target keccak r.context.address salt
          (memGet r.machine.memory cOff cLen)))) := by
  have hphase : createPopPhase keccak true r =
      .ok ((value, memGet r.machine.memory cOff cLen,
        CreateScheme.Fixed (create2Target keccak r.context.address salt
          (memGet r.machine.memory cOff cLen))), setStack r rest) := by
    simp only [createPopPhase, popW, hs, setStack_stack, setStack_memory,
      setStack_context, setStack_setStack, asUsizeOrFail, h1, h2, if_true]
    simp [create2Target, List.append_assoc]
  exact ⟨hphase, evalCreate_events_head keccak h true r value
    (memGet r.machine.memory cOff cLen)
    (CreateScheme.Fixed (create2Target keccak r.context.address salt
      (memGet r.machine.memory cOff cLen))) (setStack r rest) hphase⟩

/-- Fixture runtime for the CREATE2 witness: `value = 1`,
`code_offset = 0`, `len = 0`, `salt = 3`. -/
def c3Runtime : Runtime := mkRuntime [1, 0, 0, 3] [] [] ⟨5, 6, 7⟩ Config.frontier

theorem create2_scheme_matches_spec_witness :
    createPopPhase (fun l => l.length) true c3Runtime =
      .ok ((1, memGet c3Runtime.machine.memory 0 0,
        CreateScheme.Fixed (create2Target (fun l => l.length)
          c3Runtime.context.address 3 (memGet c3Runtime.machine.memory 0 0))),
        setStack c3Runtime []) ∧
    ((evalCreate (fun l => l.length) okCallHandler true c3Runtime).2.2).head? =
      some (HEvent.createAddressEv c3Runtime.context.address
        (CreateScheme.Fixed (create2Target (fun l => l.length)
          c3Runtime.context.address 3 (memGet c3Runtime.machine.memory 0 0)))) := by
  exact create2_scheme_matches_spec (fun l => l.length) okCallHandler c3Runtime
    1 0 0 3 [] rfl (by decide) (by decide)

/-- Whatever the host answers, the trace of `call` starts with the host
call request built from the decoded operands. -/
theorem evalCall_events_head (h : Handler) (scheme : CallScheme) (r0 : Runtime)
    (ops : CallOperands) (r1 : Runtime)
    (hphase : callPopPhase r0 scheme = .ok (ops, r1)) :
    ((evalCall h scheme r0).2.2).head? =
      some (HEvent.callEv (ops.toWord % ADDRMOD) (callTransferOf scheme r1 ops)
        (memGet r1.machine.memory ops.inOffset ops.inLen) (some ops.gas)
        (scheme = .StaticCall) (callContextOf scheme r1 ops)) := by
  unfold evalCall
  simp only [hphase]
  repeat' split
  all_goals rfl

/-- DELEGATECALL decoding: six operands, no value pop, value fixed to
zero, no stipend. -/
theorem callPopPhase_delegate (r : Runtime) (g toW io il oo ol : Word)
    (rest : List Word)
    (hs : r.machine.stack = g :: toW :: io :: il :: oo :: ol :: rest)
    (hg : g < USIZE) (hio : io < USIZE) (hil : il < USIZE) (hoo : oo < USIZE)
    (hol : ol < USIZE) :
    callPopPhase r .DelegateCall = .ok (⟨g, toW, 0, io, il, oo, ol⟩, setStack r rest) := by
  simp only [callPopPhase, popW, popW2, popW4, hs, setStack_stack, setStack_setStack,
    setStack_config, asUsizeOrFail, hg, hio, hil, hoo, hol, if_true]
  simp

/-- STATICCALL decoding: six operands, no value pop, value fixed to zero,
no stipend. -/
theorem callPopPhase_static (r : Runtime) (g toW io il oo ol : Word)
    (rest : List Word)
    (hs : r.machine.stack = g :: toW :: io :: il :: oo :: ol :: rest)
    (hg : g < USIZE) (hio : io < USIZE) (hil : il < USIZE) (hoo : oo < USIZE)
    (hol : ol < USIZE) :
    callPopPhase r .StaticCall = .ok (⟨g, toW, 0, io, il, oo, ol⟩, setStack r rest) := by
  simp only [callPopPhase, popW, popW2, popW4, hs, setStack_stack, setStack_setStack,
    setStack_config, asUsizeOrFail, hg, hio, hil, hoo, hol, if_true]
  simp

/-- CALL/CALLCODE decoding with a non-zero value: seven operands and the
stipend added to the gas with `usize` wrap-around. -/
theorem callPopPhase_withValue (r : Runtime) (scheme : CallScheme)
    (hsc : scheme = .Call ∨ scheme = .CallCode)
    (g toW v io il oo ol : Word) (rest : List Word)
    (hs : r.machine.stack = g :: toW :: v :: io :: il :: oo :: ol :: rest)
    (hg : g < USIZE) (hio : io < USIZE) (hil : il < USIZE) (hoo : oo < USIZE)
    (hol : ol < USIZE) (hv : v ≠ 0) :
    callPopPhase r scheme =
      .ok (⟨(g + r.config.callStipend) % USIZE, toW, v, io, il, oo, ol⟩,
        setStack r rest) := by
  rcases hsc with hsc | hsc <;> subst hsc <;>
    (simp only [callPopPhase, popW, popW2, popW4, hs, setStack_stack,
      setStack_setStack, setStack_config, asUsizeOrFail, hg, hio, hil, hoo, hol,
      if_true]
     simp [hv])

theorem firstCallGas_of_head (evs : List HEvent) (a : Address) (t : Option Transfer)
    (i : List Nat) (g : Option Nat) (st : Bool) (c : Context)
    (hh : evs.head? = some (.callEv a t i g st c)) : firstCallGas evs = some g := by
  cases evs with
  | nil => simp at hh
  | cons x tl =>
    simp at hh
    subst hh
    rfl

/-- C9: DELEGATECALL pops six operands (no value operand; the value is
fixed to zero, so no stipend is added and the forwarded gas is the popped
gas), and the host call request carries no transfer, the static flag off,
and a child context whose address is the current frame's address, whose
caller is the current frame's caller and whose apparent value is the
current frame's apparent value. -/
theorem delegatecall_context_and_transfer
    (h : Handler) (r : Runtime) (g toW io il oo ol : Word) (rest : List Word)
    (hs : r.machine.stack = g :: toW :: io :: il :: oo :: ol :: rest)
    (hg : g < USIZE) (hio : io < USIZE) (hil : il < USIZE) (hoo : oo < USIZE)
    (hol : ol < USIZE) :
    callPopPhase r .DelegateCall =
      .ok (⟨g, toW, 0, io, il, oo, ol⟩, setStack r rest) ∧
    ((evalCall h .DelegateCall r).2.2).head? =
      some (HEvent.callEv (toW % ADDRMOD) none
        (memGet r.machine.memory io il) (some g) false
        ⟨r.context.address, r.context.caller, r.context.apparentValue⟩) := by
  have hphase := callPopPhase_delegate r g toW io il oo ol rest hs hg hio hil hoo hol
  refine ⟨hphase, ?_⟩
  exact evalCall_events_head h .DelegateCall r ⟨g, toW, 0, io, il, oo, ol⟩
    (setStack r rest) hphase

theorem delegatecall_context_and_transfer_witness :
    callPopPhase (mkRuntime [4, 9, 0, 0, 0, 0] [] [] ⟨1, 2, 3⟩ Config.frontier)
        .DelegateCall =
      .ok (⟨4, 9, 0, 0, 0, 0, 0⟩,
        setStack (mkRuntime [4, 9, 0, 0, 0, 0] [] [] ⟨1, 2, 3⟩ Config.frontier) []) ∧
    ((evalCall okCallHandler .DelegateCall
        (mkRuntime [4, 9, 0, 0, 0, 0] [] [] ⟨1, 2, 3⟩ Config.frontier)).2.2).head? =
      some (HEvent.callEv 9 none [] (some 4) false ⟨1, 2, 3⟩) := by
  have H := delegatecall_context_and_transfer okCallHandler
    (mkRuntime [4, 9, 0, 0, 0, 0] [] [] ⟨1, 2, 3⟩ Config.frontier)
    4 9 0 0 0 0 [] rfl (by decide) (by decide) (by decide) (by decide) (by decide)
  exact H

/-- C5 (amended): for CALL and CALLCODE with popped value non-zero, the
gas passed to the host call equals the popped requested gas plus
`config.call_stipend` reduced modulo `USIZE` (the addition is a `usize`
addition, so it wraps at `2 ^ 64`); in particular with requested gas `0`,
value `1` and `call_stipend = 2300` the forwarded gas is exactly `2300`.
For DELEGATECALL and STATICCALL (value fixed to `0`), no stipend is ever
added: the forwarded gas is exactly the popped gas. -/
theorem call_stipend_forwarding_amended :
    (∀ (h : Handler) (r : Runtime) (scheme : CallScheme)
       (g toW v io il oo ol : Word) (rest : List Word),
       scheme = .Call ∨ scheme = .CallCode →
       r.machine.stack = g :: toW :: v :: io :: il :: oo :: ol :: rest →
       g < USIZE → io < USIZE → il < USIZE → oo < USIZE → ol < USIZE → v ≠ 0 →
       firstCallGas (evalCall h scheme r).2.2 =
         some (some ((g + r.config.callStipend) % USIZE))) ∧
    (∀ (h : Handler) (r : Runtime) (scheme : CallScheme)
       (g toW io il oo ol : Word) (rest : List Word),
       scheme = .DelegateCall ∨ scheme = .StaticCall →
       r.machine.stack = g :: toW :: io :: il :: oo :: ol :: rest →
       g < USIZE → io < USIZE → il < USIZE → oo < USIZE → ol < USIZE →
       firstCallGas (evalCall h scheme r).2.2 = some (some g)) := by
  constructor
  · intro h r scheme g toW v io il oo ol rest hsc hs hg hio hil hoo hol hv
    have hphase := callPopPhase_withValue r scheme hsc g toW v io il oo ol rest
      hs hg hio hil hoo hol hv
    exact firstCallGas_of_head _ _ _ _ _ _ _
      (evalCall_events_head h scheme r
        ⟨(g + r.config.callStipend) % USIZE, toW, v, io, il, oo, ol⟩
        (setStack r rest) hphase)
  · intro h r scheme g toW io il oo ol rest hsc hs hg hio hil hoo hol
    rcases hsc with hsc | hsc <;> subst hsc
    · exact firstCallGas_of_head _ _ _ _ _ _ _
        (evalCall_events_head h .DelegateCall r ⟨g, toW, 0, io, il, oo, ol⟩
          (setStack r rest)
          (callPopPhase_delegate r g toW io il oo ol rest hs hg hio hil hoo hol))
    · exact firstCallGas_of_head _ _ _ _ _ _ _
        (evalCall_events_head h .StaticCall r ⟨g, toW, 0, io, il, oo, ol⟩
          (setStack r rest)
          (callPopPhase_static r g toW io il oo ol rest hs hg hio hil hoo hol))

theorem call_stipend_forwarding_amended_witness :
    firstCallGas (evalCall okCallHandler .Call
      (mkRuntime [0, 9, 1, 0, 0, 0, 0] [] [] ⟨1, 2, 3⟩ Config.frontier)).2.2 =
      some (some 2300) ∧
    firstCallGas (evalCall okCallHandler .StaticCall
      (mkRuntime [7, 9, 0, 0, 0, 0] [] [] ⟨1, 2, 3⟩ Config.frontier)).2.2 =
      some (some 7) := by
  constructor
  · have H := call_stipend_forwarding_amended.1 okCallHandler
      (mkRuntime [0, 9, 1, 0, 0, 0, 0] [] [] ⟨1, 2, 3⟩ Config.frontier) .Call
      0 9 1 0 0 0 0 [] (Or.inl rfl) rfl (by decide) (by decide) (by decide)
      (by decide) (by decide) (by decide)
    simpa using H
  · exact call_stipend_forwarding_amended.2 okCallHandler
      (mkRuntime [7, 9, 0, 0, 0, 0] [] [] ⟨1, 2, 3⟩ Config.frontier) .StaticCall
      7 9 0 0 0 0 [] (Or.inr rfl) rfl (by decide) (by decide) (by decide)
      (by decide) (by decide)

/-- C10: for the CALL family and CREATE/CREATE2, whenever the operand
decoding prefix (the stack pops and native-index conversions, sequenced
exactly as in the source) fails with a decoding error, the opcode returns
an exit with that error and the host interaction trace is empty: no host
operation (`call`, `create`, `create_address`, `transfer`) is ever
reached. -/
theorem decode_failure_precedes_host :
    (∀ (h : Handler) (scheme : CallScheme) (r : Runtime) (e : ExitError)
       (r1 : Runtime),
       callPopPhase r scheme = .error (e, r1) →
       evalCall h scheme r = (.Exit (.error e), r1, [])) ∧
    (∀ (keccak : List Nat → Nat) (h : Handler) (isC2 : Bool) (r : Runtime)
       (e : ExitError) (r1 : Runtime),
       createPopPhase keccak isC2 r = .error (e, r1) →
       evalCreate keccak h isC2 r = (.Exit (.error e), r1, [])) := by
  constructor
  · intro h scheme r e r1 hphase
    unfold evalCall
    simp only [hphase]
  · intro keccak h isC2 r e r1 hphase
    unfold evalCreate
    simp only [hphase]

theorem decode_failure_precedes_host_witness :
    evalCall okCallHandler .Call (mkRuntime [] [] [] ⟨1, 2, 3⟩ Config.frontier) =
      (.Exit (.error .StackUnderflow),
       mkRuntime [] [] [] ⟨1, 2, 3⟩ Config.frontier, []) ∧
    evalCreate (fun _ => 0) okCallHandler false
        (mkRuntime [] [] [] ⟨1, 2, 3⟩ Config.frontier) =
      (.Exit (.error .StackUnderflow),
       mkRuntime [] [] [] ⟨1, 2, 3⟩ Config.frontier, []) := by
  exact ⟨decode_failure_precedes_host.1 okCallHandler .Call
      (mkRuntime [] [] [] ⟨1, 2, 3⟩ Config.frontier) .StackUnderflow
      (mkRuntime [] [] [] ⟨1, 2, 3⟩ Config.frontier) rfl,
    decode_failure_precedes_host.2 (fun _ => 0) okCallHandler false
      (mkRuntime [] [] [] ⟨1, 2, 3⟩ Config.frontier) .StackUnderflow
      (mkRuntime [] [] [] ⟨1, 2, 3⟩ Config.frontier) rfl⟩

theorem popTopics_append (topics : List Word) (r : Runtime) (rest : List Word)
    (hs : r.machine.stack = topics ++ rest) :
    popTopics topics.length r = .ok (topics, setStack r rest) := by
  induction topics generalizing r with
  | nil =>
    simp only [List.nil_append] at hs
    simp [popTopics, setStack_eq_self r rest hs]
  | cons t ts ih =>
    simp only [List.cons_append] at hs
    simp only [List.length_cons, popTopics, popW, hs]
    rw [ih (setStack r (ts ++ rest)) (by simp)]
    simp

/-- C8: host-error propagation policy.  Parts (1)-(4): an error returned
by the host from `set_storage` (SSTORE), `log` (LOGn), `transfer` or
`mark_delete` (SUICIDE) makes the frame exit with that error
unconditionally - the trace shows `is_recoverable` is never consulted and
the resulting stack shows no zero is pushed.  Parts (5)-(7): an error
from `create_address`, `create` or `call` pushes a zero and the frame
continues when `is_recoverable()` is true, else exits with the error; the
trace shows the single `is_recoverable` consultation. -/
theorem host_error_fatal_vs_recoverable :
    (∀ (h : Handler) (r : Runtime) (k v : Word) (rest : List Word) (e : ExitError),
       r.machine.stack = k :: v :: rest →
       h.setStorage r.context.address k v = .error e →
       evalSstore h r = (.Exit (.error e), setStack r rest,
         [.setStorageEv r.context.address k v])) ∧
    (∀ (h : Handler) (r : Runtime) (off len : Word) (topics rest : List Word)
       (e : ExitError),
       r.machine.stack = off :: len :: (topics ++ rest) →
       off < USIZE → len < USIZE →
       h.log r.context.address topics (memGet r.machine.memory off len) = .error e →
       evalLog topics.length h r = (.Exit (.error e), setStack r rest,
         [.logEv r.context.address topics (memGet r.machine.memory off len)])) ∧
    (∀ (h : Handler) (r : Runtime) (target : Word) (rest : List Word) (e : ExitError),
       r.machine.stack = target :: rest →
       h.transfer ⟨r.context.address, target % ADDRMOD,
         h.balance r.context.address⟩ = .error e →
       evalSuicide h r = (.Exit (.error e), setStack r rest,
         [.balanceEv r.context.address,
          .transferEv ⟨r.context.address, target % ADDRMOD,
            h.balance r.context.address⟩])) ∧
    (∀ (h : Handler) (r : Runtime) (target : Word) (rest : List Word) (e : ExitError),
       r.machine.stack = target :: rest →
       h.transfer ⟨r.context.address, target % ADDRMOD,
         h.balance r.context.address⟩ = .ok () →
       h.markDelete r.context.address = .error e →
       evalSuicide h r = (.Exit (.error e), setStack r rest,
         [.balanceEv r.context.address,
          .transferEv ⟨r.context.address, target % ADDRMOD,
            h.balance r.context.address⟩,
          .markDeleteEv r.context.address])) ∧
    (∀ (keccak : List Nat → Nat) (h : Handler) (isC2 : Bool) (r r1 : Runtime)
       (value : Word) (code : List Nat) (scheme : CreateScheme) (e : ExitError),
       createPopPhase keccak isC2 r = .ok ((value, code, scheme), r1) →
       h.createAddress r1.context.address scheme = .error e →
       r1.machine.stack.length < r1.machine.stackLimit →
       evalCreate keccak h isC2 r =
         ((if h.isRecoverable then .Continue else .Exit (.error e)),
          setStack r1 (0 :: r1.machine.stack),
          [.createAddressEv r1.context.address scheme, .isRecoverableEv])) ∧
    (∀ (keccak : List Nat → Nat) (h : Handler) (isC2 : Bool) (r r1 : Runtime)
       (value : Word) (code : List Nat) (scheme : CreateScheme) (a : Address)
       (e : ExitError),
       createPopPhase keccak isC2 r = .ok ((value, code, scheme), r1) →
       h.createAddress r1.context.address scheme = .ok a →
       h.create a (some ⟨r1.context.address, a, value⟩) code none
         ⟨a, r1.context.address, value⟩ = .error e →
       r1.machine.stack.length < r1.machine.stackLimit →
       evalCreate keccak h isC2 r =
         ((if h.isRecoverable then .Continue else .Exit (.error e)),
          setStack r1 (0 :: r1.machine.stack),
          [.createAddressEv r1.context.address scheme,
           .createEv a (some ⟨r1.context.address, a, value⟩) code none
             ⟨a, r1.context.address, value⟩,
           .isRecoverableEv])) ∧
    (∀ (h : Handler) (scheme : CallScheme) (r r1 : Runtime) (ops : CallOperands)
       (e : ExitError),
       callPopPhase r scheme = .ok (ops, r1) →
       h.call (ops.toWord % ADDRMOD) (callTransferOf scheme r1 ops)
         (memGet r1.machine.memory ops.inOffset ops.inLen) (some ops.gas)
         (scheme = .StaticCall) (callContextOf scheme r1 ops) = .error e →
       r1.machine.stack.length < r1.machine.stackLimit →
       evalCall h scheme r =
         ((if h.isRecoverable then .Continue else .Exit (.error e)),
          setStack r1 (0 :: r1.machine.stack),
          [.callEv (ops.toWord % ADDRMOD) (callTransferOf scheme r1 ops)
             (memGet r1.machine.memory ops.inOffset ops.inLen) (some ops.gas)
             (scheme = .StaticCall) (callContextOf scheme r1 ops),
           .isRecoverableEv])) := by
  refine ⟨?_, ?_, ?_, ?_, ?_, ?_, ?_⟩
  · intro h r k v rest e hs hset
    simp only [evalSstore, popW, hs, setStack_stack, setStack_setStack,
      setStack_context]
    simp [hset]
  · intro h r off len topics rest e hs hoff hlen hlog
    simp only [evalLog, popW2, popW, hs, setStack_stack, setStack_setStack,
      setStack_context, setStack_memory, asUsizeOrFail, hoff, hlen, if_true]
    rw [popTopics_append topics (setStack r (topics ++ rest)) rest (by simp)]
    simp [hlog]
  · intro h r target rest e hs htr
    simp only [evalSuicide, popW, hs, setStack_context]
    simp [htr]
  · intro h r target rest e hs htr hmd
    simp only [evalSuicide, popW, hs, setStack_context]
    simp [htr, hmd]
  · intro keccak h isC2 r r1 value code scheme e hphase hca hlen
    unfold evalCreate
    simp only [hphase, hca]
    have hpush : pushW r1 0 = .ok (setStack r1 (0 :: r1.machine.stack)) := by
      simp [pushW, hlen]
    simp only [hpush]
    cases h.isRecoverable <;> simp
  · intro keccak h isC2 r r1 value code scheme a e hphase hca hcr hlen
    unfold evalCreate
    simp only [hphase, hca, hcr]
    have hpush : pushW r1 0 = .ok (setStack r1 (0 :: r1.machine.stack)) := by
      simp [pushW, hlen]
    simp only [hpush]
    cases h.isRecoverable <;> simp
  · intro h scheme r r1 ops e hphase hcall hlen
    unfold evalCall
    simp only [hphase, hcall]
    have hpush : pushW r1 0 = .ok (setStack r1 (0 :: r1.machine.stack)) := by
      simp [pushW, hlen]
    simp only [hpush]
    cases h.isRecoverable <;> simp

/-- A host that fails `set_storage`, `log`, `transfer` and
`create_address` with distinct errors and is not recoverable. -/
def errHostA : Handler where
  balance := fun _ => 0
  preValidate := fun _ _ _ => .ok ()
  setStorage := fun _ _ _ => .error (.Other 1)
  log := fun _ _ _ => .error (.Other 2)
  transfer := fun _ => .error (.Other 3)
  markDelete := fun _ => .ok ()
  createAddress := fun _ _ => .error (.Other 4)
  create := fun _ _ _ _ _ => .ok (.exit (.ok .Stopped))
  call := fun _ _ _ _ _ _ => .ok (.exit (.ok .Stopped, []))
  isRecoverable := false

/-- A recoverable host that fails `mark_delete`, `create` and `call` with
distinct errors but allocates creation addresses successfully. -/
def errHostB : Handler where
  balance := fun _ => 0
  preValidate := fun _ _ _ => .ok ()
  setStorage := fun _ _ _ => .ok ()
  log := fun _ _ _ => .ok ()
  transfer := fun _ => .ok ()
  markDelete := fun _ => .error (.Other 5)
  createAddress := fun _ _ => .ok 5
  create := fun _ _ _ _ _ => .error (.Other 6)
  call := fun _ _ _ _ _ _ => .error (.Other 7)
  isRecoverable := true

theorem host_error_fatal_vs_recoverable_witness :
    evalSstore errHostA (mkRuntime [1, 2] [] [] ⟨8, 0, 0⟩ Config.frontier) =
      (.Exit (.error (.Other 1)),
       setStack (mkRuntime [1, 2] [] [] ⟨8, 0, 0⟩ Config.frontier) [],
       [.setStorageEv 8 1 2]) ∧
    evalLog 1 errHostA (mkRuntime [0, 0, 3] [] [] ⟨8, 0, 0⟩ Config.frontier) =
      (.Exit (.error (.Other 2)),
       setStack (mkRuntime [0, 0, 3] [] [] ⟨8, 0, 0⟩ Config.frontier) [],
       [.logEv 8 [3] []]) ∧
    evalSuicide errHostA (mkRuntime [9] [] [] ⟨8, 0, 0⟩ Config.frontier) =
      (.Exit (.error (.Other 3)),
       setStack (mkRuntime [9] [] [] ⟨8, 0, 0⟩ Config.frontier) [],
       [.balanceEv 8, .transferEv ⟨8, 9, 0⟩]) ∧
    evalSuicide errHostB (mkRuntime [9] [] [] ⟨8, 0, 0⟩ Config.frontier) =
      (.Exit (.error (.Other 5)),
       setStack (mkRuntime [9] [] [] ⟨8, 0, 0⟩ Config.frontier) [],
       [.balanceEv 8, .transferEv ⟨8, 9, 0⟩, .markDeleteEv 8]) ∧
    evalCreate (fun _ => 0) errHostA false
        (mkRuntime [0, 0, 0] [] [] ⟨8, 0, 0⟩ Config.frontier) =
      (.Exit (.error (.Other 4)),
       setStack (mkRuntime [] [] [] ⟨8, 0, 0⟩ Config.frontier) [0],
       [.createAddressEv 8 .Dynamic, .isRecoverableEv]) ∧
    evalCreate (fun _ => 0) errHostB false
        (mkRuntime [0, 0, 0] [] [] ⟨8, 0, 0⟩ Config.frontier) =
      (.Continue,
       setStack (mkRuntime [] [] [] ⟨8, 0, 0⟩ Config.frontier) [0],
       [.createAddressEv 8 .Dynamic,
        .createEv 5 (some ⟨8, 5, 0⟩) [] none ⟨5, 8, 0⟩, .isRecoverableEv]) ∧
    evalCall errHostB .Call
        (mkRuntime [0, 9, 0, 0, 0, 0, 0] [] [] ⟨8, 0, 0⟩ Config.frontier) =
      (.Continue,
       setStack (mkRuntime [] [] [] ⟨8, 0, 0⟩ Config.frontier) [0],
       [.callEv 9 (some ⟨8, 9, 0⟩) [] (some 0) false ⟨9, 8, 0⟩,
        .isRecoverableEv]) := by
  refine ⟨?_, ?_, ?_, ?_, ?_, ?_, ?_⟩
  · exact host_error_fatal_vs_recoverable.1 errHostA
      (mkRuntime [1, 2] [] [] ⟨8, 0, 0⟩ Config.frontier) 1 2 [] (.Other 1) rfl rfl
  · exact host_error_fatal_vs_recoverable.2.1 errHostA
      (mkRuntime [0, 0, 3] [] [] ⟨8, 0, 0⟩ Config.frontier) 0 0 [3] [] (.Other 2)
      rfl (by decide) (by decide) rfl
  · exact host_error_fatal_vs_recoverable.2.2.1 errHostA
      (mkRuntime [9] [] [] ⟨8, 0, 0⟩ Config.frontier) 9 [] (.Other 3) rfl rfl
  · exact host_error_fatal_vs_recoverable.2.2.2.1 errHostB
      (mkRuntime [9] [] [] ⟨8, 0, 0⟩ Config.frontier) 9 [] (.Other 5) rfl rfl rfl
  · exact host_error_fatal_vs_recoverable.2.2.2.2.1 (fun _ => 0) errHostA false
      (mkRuntime [0, 0, 0] [] [] ⟨8, 0, 0⟩ Config.frontier)
      (mkRuntime [] [] [] ⟨8, 0, 0⟩ Config.frontier) 0 [] .Dynamic (.Other 4)
      (by decide) rfl (by decide)
  · exact host_error_fatal_vs_recoverable.2.2.2.2.2.1 (fun _ => 0) errHostB false
      (mkRuntime [0, 0, 0] [] [] ⟨8, 0, 0⟩ Config.frontier)
      (mkRuntime [] [] [] ⟨8, 0, 0⟩ Config.frontier) 0 [] .Dynamic 5 (.Other 6)
      (by decide) rfl rfl (by decide)
  · exact host_error_fatal_vs_recoverable.2.2.2.2.2.2 errHostB .Call
      (mkRuntime [0, 9, 0, 0, 0, 0, 0] [] [] ⟨8, 0, 0⟩ Config.frontier)
      (mkRuntime [] [] [] ⟨8, 0, 0⟩ Config.frontier) ⟨0, 9, 0, 0, 0, 0, 0⟩
      (.Other 7) (by decide) rfl (by decide)
